import Mathlib

/-!
# Verification of the property-data normalization layer

This development embeds `src/redesign/src/services/propertyService.js` of the
`property-info-display` repository: the alias tables (`propertyIdMapping`,
`stateMapping`), the normalizer `processPropertyData`, the three read
operations (`getAllProperties`, `getPropertiesByState`, `getPropertyDetails`)
and the write path `savePropertyData`.

JavaScript values are modelled by the inductive type `JVal` (a JSON-like value
with an explicit `undefined` for missing object properties), so that JavaScript's
truthiness-based defaulting (`x || d`, `a && b`) is embedded faithfully:
an empty string, `0`, `null`, `false` and `undefined` are falsy, while every
array and object — including the empty ones — is truthy.  The remote store
(Firebase Realtime Database) is modelled as an oracle from slash-separated
paths to a one-shot read outcome: either a snapshot value (with the value
`undefined`/`null` standing for "no data at this path") or a transport failure.
-/

namespace PropertyService

/-- A JavaScript value as it occurs in this service: `undefined` is the result of
reading an absent object property.  Numbers are modelled as integers (the
service performs no arithmetic, only truthiness tests on them). -/
inductive JVal where
  | undefined
  | null
  | bool (b : Bool)
  | num (n : Int)
  | str (s : String)
  | arr (elems : List JVal)
  | obj (fields : List (String × JVal))

/-- JavaScript truthiness: `undefined`, `null`, `false`, `0` and `""` are
falsy; every other value — in particular every array and object — is truthy. -/
def JVal.toBool : JVal → Bool
  | .undefined => false
  | .null => false
  | .bool b => b
  | .num n => n != 0
  | .str s => s != ""
  | .arr _ => true
  | .obj _ => true

/-- JavaScript `a || b`: `a` when truthy, otherwise `b`. -/
def jor (a b : JVal) : JVal := if a.toBool then a else b

/-- JavaScript `a && b`: `b` when `a` is truthy, otherwise `a`. -/
def jand (a b : JVal) : JVal := if a.toBool then b else a

/-- Property access `v.k`: looks `k` up among an object's fields, yielding
`undefined` when the key is absent or the receiver is not an object. -/
def JVal.get : JVal → String → JVal
  | .obj fields, k =>
    match fields.find? (fun p => p.1 == k) with
    | some p => p.2
    | none => .undefined
  | _, _ => .undefined

/-- A snapshot value exists (Firebase `snapshot.exists()`): the value at the
path is neither missing nor `null`. -/
def isDefined : JVal → Bool
  | .undefined => false
  | .null => false
  | _ => true

/-- JavaScript `obj[k] = v` on a plain object: an existing key is updated in
place (keeping its position), a new key is appended. -/
def objSet : List (String × JVal) → String → JVal → List (String × JVal)
  | [], k, v => [(k, v)]
  | (k', v') :: rest, k, v =>
    if k' = k then (k, v) :: rest else (k', v') :: objSet rest k v

/-- The string used when a `JVal` (always a `str` here) is used as an object
key. -/
def jvalKey : JVal → String
  | .str s => s
  | _ => ""

/-- The property-alias table `propertyIdMapping` (lines 30–110 of the source):
frontend URL slug to Firebase property key. -/
def propertyIdMapping : List (String × String) :=
  [("westover-pointe", "westover-pointe"),
   ("hunters-crossing", "hunters-crossing"),
   ("liberty-pointe", "liberty-pointe"),
   ("meridian-south", "meridian-south"),
   ("meridian-north", "meridian-north"),
   ("iron-ridge", "iron-ridge"),
   ("landmark-glen-station", "landmark"),
   ("mariners-pointe", "mariners-pointe"),
   ("metro-pointe", "metro-pointe"),
   ("scotland-heights", "scotland-heights"),
   ("stonegate-iron-ridge", "stonegate"),
   ("the-flats", "flats"),
   ("the-ridge", "ridge"),
   ("yorkshire-apartments", "yorkshire"),
   ("aspen-court", "aspen-court"),
   ("cherry-hill-towers", "cherry-hill-towers"),
   ("fox-pointe", "fox-pointe"),
   ("haven-new-providence", "haven"),
   ("holly-court", "holly-court"),
   ("joralemon", "joralemon"),
   ("orchard-park", "orchard-park"),
   ("overlook-at-flanders", "overlook"),
   ("parc-at-cherry-hill", "parcCherry"),
   ("parc-at-lyndhurst", "parcLyn"),
   ("parc-at-maplewood-station", "parcMaple"),
   ("parc-at-roxbury", "parcRox"),
   ("silverlake", "silverlake"),
   ("the-brunswick", "brunswick"),
   ("the-colony-at-chews-landing", "colony"),
   ("the-george-new-brunswick", "georgeNB"),
   ("the-monroe", "monroe"),
   ("the-woodlands", "woodlands"),
   ("millcroft", "millcroft"),
   ("pointe-at-northern-woods", "pointeNW"),
   ("ponderosa", "ponderosa"),
   ("reserves-at-arlington", "reserves-arlington"),
   ("reserves-at-northern-woods", "reservesNW"),
   ("1869-west", "1869west"),
   ("214-vine", "214vine"),
   ("aston-pointe", "aston-pointe"),
   ("cheltenham-station", "cheltenham-station"),
   ("cosmopolitan", "cosmopolitan"),
   ("franklin-commons", "franklin-commons"),
   ("greenspring", "greenspring"),
   ("lehigh-square", "lehigh"),
   ("lehigh-square-b", "lehigh-B"),
   ("metal-works", "metal-works"),
   ("parc-at-west-pointe", "parcWest"),
   ("river-oaks", "river-oaks"),
   ("river-pointe", "river-pointe"),
   ("springhouse-townhomes", "springhouse"),
   ("terminal-21", "terminal21"),
   ("the-addison", "addison"),
   ("the-alden", "alden"),
   ("the-commons", "commons"),
   ("the-nolan", "nolan"),
   ("the-residence-at-st-josephs", "residence-josephs"),
   ("the-view-at-north-hills", "viewNorth"),
   ("the-wellington", "wellington"),
   ("valley-park", "valley-park"),
   ("chesterfield-flats", "chesterfield-flats"),
   ("chesapeake-pointe", "chesapeake-pointe"),
   ("harborstone", "harborstone"),
   ("james-river-pointe", "james-river-pointe"),
   ("pointe-at-river-city", "pointe-river-city"),
   ("reserves-at-tidewater", "reserves-tidewater")]

/-- The state-alias table `stateMapping` (lines 118–126 of the source):
frontend state id to Firebase state name. -/
def stateMapping : List (String × String) :=
  [("newJersey", "New Jersey"),
   ("delaware", "Delaware"),
   ("indiana", "Indiana"),
   ("maryland", "Maryland"),
   ("ohio", "Ohio"),
   ("pennsylvania", "Pennsylvania"),
   ("virginia", "Virginia")]

/-- Key lookup in a static alias table (JavaScript `table[key]`, `undefined`
modelled as `none`). -/
def tableLookup (table : List (String × String)) (key : String) : Option String :=
  (table.find? (fun p => p.1 == key)).map (fun p => p.2)

/-- `stateMapping[state] || state` — resolve a frontend state id to the
Firebase state name, passing unknown ids through unchanged. -/
def resolveState (state : String) : String :=
  (tableLookup stateMapping state).getD state

/-- `propertyIdMapping[propertyId] || propertyId` — resolve a frontend slug to
the Firebase property key, passing unknown slugs through unchanged. -/
def resolveProperty (propertyId : String) : String :=
  (tableLookup propertyIdMapping propertyId).getD propertyId

/-- The property names every plain object literal inherits from
`Object.prototype`.  Reading one of them on the alias tables yields the
inherited member — a function, except for the accessor `__proto__`, which
yields the prototype object itself — and every such value is truthy and is
not a string. -/
def objectPrototypeMembers : List String :=
  ["constructor", "hasOwnProperty", "isPrototypeOf", "propertyIsEnumerable",
   "toLocaleString", "toString", "valueOf", "__defineGetter__",
   "__defineSetter__", "__lookupGetter__", "__lookupSetter__", "__proto__"]

/-- The value of a JavaScript bracket read on an alias table under full
prototype-chain semantics: an own entry's string, an inherited
`Object.prototype` member (truthy, not a string), or `undefined`. -/
inductive TableVal where
  | str (s : String)
  | inherited (name : String)
  | undefined
deriving DecidableEq

/-- Truthiness of a table-read value: own entries are truthy iff non-empty,
inherited members (functions / the prototype object) are always truthy. -/
def TableVal.toBool : TableVal → Bool
  | .str s => s != ""
  | .inherited _ => true
  | .undefined => false

/-- Whether a table-read value is a string. -/
def TableVal.isStr : TableVal → Bool
  | .str _ => true
  | _ => false

/-- JavaScript `table[key]` on an alias-table object literal, including the
prototype chain: an own entry wins, otherwise an `Object.prototype` member
name yields the inherited member, otherwise `undefined`. -/
def jsTableGet (table : List (String × String)) (key : String) : TableVal :=
  match table.find? (fun p => p.1 == key) with
  | some p => .str p.2
  | none =>
    if objectPrototypeMembers.contains key = true then .inherited key
    else .undefined

/-- JavaScript `table[key] || key` under full prototype-chain semantics (the
lookup is pure, so evaluating it twice is equivalent to JavaScript's single
evaluation). -/
def jsResolve (table : List (String × String)) (key : String) : TableVal :=
  if (jsTableGet table key).toBool then jsTableGet table key else .str key

/-- JavaScript `toLowerCase()`, character by character (all keys and names in
this service are basic-latin, where JavaScript and `Char.toLower` agree). -/
def jsToLower (s : String) : String :=
  String.mk (s.data.map Char.toLower)

/-- The characters matched by the regular expression `\s` (ASCII range). -/
def jsWhitespace (c : Char) : Bool :=
  c == ' ' || c == '\t' || c == '\n' || c == '\r' || c == '\x0B' || c == '\x0C'

/-- `replace(/\s+/g, "-")` on a character list: every maximal run of
whitespace becomes a single dash.  The flag records whether the previous
character belonged to a whitespace run already replaced. -/
def replWsAux : Bool → List Char → List Char
  | _, [] => []
  | inRun, c :: cs =>
    if jsWhitespace c then
      if inRun then replWsAux true cs
      else '-' :: replWsAux true cs
    else c :: replWsAux false cs

/-- `replace(/\s+/g, "-")` on a character list. -/
def replaceWsRuns (l : List Char) : List Char := replWsAux false l

/-- Line 165: `propertyName.toLowerCase().replace(/\s+/g, "-")`. -/
def slugify (propertyName : String) : String :=
  String.mk (replaceWsRuns (jsToLower propertyName).data)

/-- `processPropertyData` (lines 163–199): normalize one raw Firebase record,
named `propertyName`, into the canonical frontend Property shape. -/
def processPropertyData (propertyName : String) (propertyDetails : JVal) : JVal :=
  let propertyId := slugify propertyName
  let vp := jor (propertyDetails.get "vp") (.obj [])
  let rem := jor (propertyDetails.get "rem") (.obj [])
  let rsd := jor (propertyDetails.get "rsd") (.obj [])
  let ds := jor (propertyDetails.get "ds") (.obj [])
  let pm := jor (propertyDetails.get "pm") (.obj [])
  .obj [
    ("id", .str propertyId),
    ("name", .str propertyName),
    ("address", jor (propertyDetails.get "address") (.str "")),
    ("description", jor (propertyDetails.get "description") (.str "")),
    ("units", jor (propertyDetails.get "unit") (.str "")),
    ("yearBuilt", jor (propertyDetails.get "yearBuilt") (.str "")),
    ("renovated", jor (propertyDetails.get "renovated") (.str "")),
    ("amenities", jor (propertyDetails.get "amenities") (.arr [])),
    ("contact", .obj [
      ("manager", jor (jand pm (pm.get "name")) (.str "")),
      ("phone", jor (propertyDetails.get "phone") (.str "")),
      ("email", jor (jand pm (pm.get "email")) (.str ""))]),
    ("staff", .obj [
      ("vp", .obj [("name", jor (jand vp (vp.get "name")) (.str "")),
                   ("email", jor (jand vp (vp.get "email")) (.str ""))]),
      ("rem", .obj [("name", jor (jand rem (rem.get "name")) (.str "")),
                    ("email", jor (jand rem (rem.get "email")) (.str ""))]),
      ("rsd", .obj [("name", jor (jand rsd (rsd.get "name")) (.str "")),
                    ("email", jor (jand rsd (rsd.get "email")) (.str ""))]),
      ("ds", .obj [("name", jor (jand ds (ds.get "name")) (.str "")),
                   ("email", jor (jand ds (ds.get "email")) (.str ""))]),
      ("pm", .obj [("name", jor (jand pm (pm.get "name")) (.str "")),
                   ("email", jor (jand pm (pm.get "email")) (.str ""))])]),
    ("images", jor (propertyDetails.get "images") (.arr [.str "/logo.png"]))]

/-- One one-shot read of the remote store at a path: either a snapshot value
(`undefined`/`null` standing for "no data") or a transport failure (the error
callback of `onValue`, or a rejected `get`). -/
inductive Snap where
  | val (v : JVal)
  | failure (err : String)

/-- The remote store as seen by this layer: an oracle mapping each
slash-separated path to the outcome of the one read issued against it. -/
def Store : Type := String → Snap

/-- The loop body shared by `getAllProperties` and `getPropertiesByState`
(lines 229–232 and 274–277): format every property of a state subtree and key
it by the formatted property's `id`. -/
def processStateVal (stateProperties : JVal) : JVal :=
  match stateProperties with
  | .obj props =>
    .obj (props.foldl
      (fun acc p =>
        let formattedProperty := processPropertyData p.1 p.2
        objSet acc (jvalKey (formattedProperty.get "id")) formattedProperty)
      [])
  | _ => .obj []

/-- The state loop of `getAllProperties` (lines 223–233): lowercase each state
key and process its properties. -/
def processAllVal (rawData : JVal) : JVal :=
  match rawData with
  | .obj states =>
    .obj (states.foldl
      (fun acc p => objSet acc (jsToLower p.1) (processStateVal p.2))
      [])
  | _ => .obj []

/-- `getAllProperties` (lines 210–246): read the dataset root; on an existing
snapshot return the processed dataset, on an absent one the empty mapping, and
propagate a transport failure as a rejection. -/
def getAllProperties (read : Store) : Except String JVal :=
  match read "properties" with
  | .failure e => .error e
  | .val v =>
    if isDefined v then .ok (processAllVal v)
    else .ok (.obj [])

/-- `getPropertiesByState` (lines 258–290): resolve the state id, read that
state's subtree, and process it; an absent snapshot yields the empty mapping,
a transport failure rejects. -/
def getPropertiesByState (read : Store) (state : String) : Except String JVal :=
  let formattedState := resolveState state
  match read ("properties/" ++ formattedState) with
  | .failure e => .error e
  | .val v =>
    if isDefined v then .ok (processStateVal v)
    else .ok (.obj [])

/-- `word.charAt(0).toUpperCase() + word.slice(1)` (lines 333–334): uppercase
the first character of a word, keeping the rest unchanged. -/
def capitalizeWord (word : String) : String :=
  match word.data with
  | [] => ""
  | c :: cs => String.mk (c.toUpper :: cs)

/-- JavaScript `split(sep)` for a one-character separator, on a character
list: `"" → [""]`, and adjacent separators yield empty segments. -/
def splitOnChar (sep : Char) : List Char → List (List Char)
  | [] => [[]]
  | c :: cs =>
    if c == sep then [] :: splitOnChar sep cs
    else
      match splitOnChar sep cs with
      | [] => [[c]]
      | w :: ws => (c :: w) :: ws

/-- JavaScript `array.join(' ')`. -/
def joinWithSpace : List String → String
  | [] => ""
  | [w] => w
  | w :: ws => w ++ " " ++ joinWithSpace ws

/-- `key.split('-').map(capitalize).join(' ')` (lines 333–334 and 386): the
display name generated from a dash-separated key. -/
def titleCaseFromKey (key : String) : String :=
  joinWithSpace ((splitOnChar '-' key.data).map (fun w => capitalizeWord (String.mk w)))

/-- The inline normalization of `getPropertyDetails` (lines 337–375): format
one raw record, using the requested (unmapped) `propertyId` as `id` and the
name generated from `mappedPropertyId` as the `name` fallback. -/
def formatProperty (propertyId mappedPropertyId : String) (propertyData : JVal) : JVal :=
  let propertyName := titleCaseFromKey mappedPropertyId
  .obj [
    ("id", .str propertyId),
    ("name", jor (propertyData.get "name") (.str propertyName)),
    ("address", jor (propertyData.get "address") (.str "")),
    ("description", jor (propertyData.get "description") (.str "")),
    ("units", jor (propertyData.get "unit") (.str "")),
    ("yearBuilt", jor (propertyData.get "yearBuilt") (.str "")),
    ("renovated", jor (propertyData.get "renovated") (.str "")),
    ("amenities", jor (propertyData.get "amenities") (.arr [])),
    ("contact", .obj [
      ("manager", jor (jand (propertyData.get "pm") ((propertyData.get "pm").get "name")) (.str "")),
      ("phone", jor (propertyData.get "phone") (.str "")),
      ("email", jor (jand (propertyData.get "pm") ((propertyData.get "pm").get "email")) (.str ""))]),
    ("staff", .obj [
      ("vp", .obj [
        ("name", jor (jand (propertyData.get "vp") ((propertyData.get "vp").get "name")) (.str "")),
        ("email", jor (jand (propertyData.get "vp") ((propertyData.get "vp").get "email")) (.str ""))]),
      ("rem", .obj [
        ("name", jor (jand (propertyData.get "rem") ((propertyData.get "rem").get "name")) (.str "")),
        ("email", jor (jand (propertyData.get "rem") ((propertyData.get "rem").get "email")) (.str ""))]),
      ("rsd", .obj [
        ("name", jor (jand (propertyData.get "rsd") ((propertyData.get "rsd").get "name")) (.str "")),
        ("email", jor (jand (propertyData.get "rsd") ((propertyData.get "rsd").get "email")) (.str ""))]),
      ("ds", .obj [
        ("name", jor (jand (propertyData.get "ds") ((propertyData.get "ds").get "name")) (.str "")),
        ("email", jor (jand (propertyData.get "ds") ((propertyData.get "ds").get "email")) (.str ""))]),
      ("pm", .obj [
        ("name", jor (jand (propertyData.get "pm") ((propertyData.get "pm").get "name")) (.str "")),
        ("email", jor (jand (propertyData.get "pm") ((propertyData.get "pm").get "email")) (.str ""))])]),
    ("images", jor (propertyData.get "images") (.arr [.str "/logo.png"]))]

/-- The development-fallback mock Property (lines 384–406). -/
def mockProperty (propertyId : String) : JVal :=
  .obj [
    ("id", .str propertyId),
    ("name", .str (titleCaseFromKey propertyId)),
    ("address", .str "123 Main St, City, State 12345"),
    ("description", .str "This is a sample property description. Real data needs to be loaded via the Admin page."),
    ("units", .str "100"),
    ("yearBuilt", .str "2010"),
    ("renovated", .str "2020"),
    ("amenities", .arr [.str "Swimming Pool", .str "Fitness Center", .str "Pet Friendly"]),
    ("contact", .obj [
      ("manager", .str "John Doe"),
      ("phone", .str "(555) 123-4567"),
      ("email", .str "john.doe@example.com")]),
    ("staff", .obj [
      ("vp", .obj [("name", .str "Jane Smith"), ("email", .str "jane.smith@example.com")]),
      ("rem", .obj [("name", .str "Robert Johnson"), ("email", .str "robert.johnson@example.com")]),
      ("rsd", .obj [("name", .str "Emily Davis"), ("email", .str "emily.davis@example.com")]),
      ("ds", .obj [("name", .str "Michael Wilson"), ("email", .str "michael.wilson@example.com")]),
      ("pm", .obj [("name", .str "Sarah Thompson"), ("email", .str "sarah.thompson@example.com")])]),
    ("images", .arr [.str "/logo.png"])]

/-- `getPropertyDetails` (lines 304–422): resolve the slug and state through
the alias tables, read the property record; an existing snapshot is formatted
inline, an absent one yields the mock Property outside production and `null`
(`none`) inside production, and a transport failure rejects.
`isProduction` embeds `process.env.NODE_ENV === 'production'`. -/
def getPropertyDetails (read : Store) (isProduction : Bool)
    (state propertyId : String) : Except String (Option JVal) :=
  let mappedPropertyId := resolveProperty propertyId
  let formattedState := resolveState state
  match read ("properties/" ++ formattedState ++ "/" ++ mappedPropertyId) with
  | .failure e => .error e
  | .val v =>
    if isDefined v then
      .ok (some (formatProperty propertyId mappedPropertyId v))
    else if isProduction then .ok none
    else .ok (some (mockProperty propertyId))

/-- The outcome of Firebase `set` for one write, as seen by this layer. -/
inductive WriteOutcome where
  | success
  | failure (err : String)

/-- A path-indexed view of the remote store's raw contents, for the write
path: each path holds one `JVal` (`undefined` when empty). -/
def RawStore : Type := String → JVal

/-- Firebase `set(ref(path), v)`: replace the entire value at `path` with `v`,
leaving every other path's value unchanged. -/
def fbSet (store : RawStore) (path : String) (v : JVal) : RawStore :=
  fun q => if q = path then v else store q

/-- `savePropertyData` (lines 139–150): write the raw record to
`properties/{state}/{property}`; on success resolve to `true` (paired here
with the updated store), on failure rethrow the error. -/
def savePropertyData (store : RawStore) (outcome : WriteOutcome)
    (state property : String) (propertyData : JVal) :
    Except String (Bool × RawStore) :=
  match outcome with
  | .success =>
    .ok (true, fbSet store ("properties/" ++ state ++ "/" ++ property) propertyData)
  | .failure e => .error e

/-! ## Helper notions and lemmas -/

/-- The keys of an object, in insertion order. -/
def keysOf : JVal → List String
  | .obj fields => fields.map Prod.fst
  | _ => []

/-- The all-default canonical Property produced from a record with zero
optional keys: empty strings, no amenities, all-empty staff roles and the
placeholder image. -/
def allDefaultProperty (propertyName : String) : JVal :=
  .obj [
    ("id", .str (slugify propertyName)),
    ("name", .str propertyName),
    ("address", .str ""),
    ("description", .str ""),
    ("units", .str ""),
    ("yearBuilt", .str ""),
    ("renovated", .str ""),
    ("amenities", .arr []),
    ("contact", .obj [("manager", .str ""), ("phone", .str ""), ("email", .str "")]),
    ("staff", .obj [
      ("vp", .obj [("name", .str ""), ("email", .str "")]),
      ("rem", .obj [("name", .str ""), ("email", .str "")]),
      ("rsd", .obj [("name", .str ""), ("email", .str "")]),
      ("ds", .obj [("name", .str ""), ("email", .str "")]),
      ("pm", .obj [("name", .str ""), ("email", .str "")])]),
    ("images", .arr [.str "/logo.png"])]

theorem toBool_isDefined (v : JVal) (h : v.toBool = true) : isDefined v = true := by
  cases v <;> simp_all [JVal.toBool, isDefined]

theorem isDefined_jor (a b : JVal) (h : isDefined b = true) :
    isDefined (jor a b) = true := by
  unfold jor
  by_cases ha : a.toBool = true
  · simp [ha, toBool_isDefined a ha]
  · simp [ha, h]

/-! ## C1 -/

/-- C1: for every raw record (any object, including the empty one) and any
name hint, `processPropertyData` returns a Property in which every canonical
field is present in the fixed order and holds a defined (neither missing nor
null) value: `id` is the slugified name hint, `name` the name hint, `contact`
holds exactly `manager`/`phone`/`email`, `staff` holds exactly the five roles
`vp`, `rem`, `rsd`, `ds`, `pm` in that fixed insertion order with defined
`name`/`email` fields, and a record with zero keys yields the all-default
Property. -/
theorem processPropertyData_total_defaults (pname : String) (fields : List (String × JVal)) :
    keysOf (processPropertyData pname (.obj fields)) =
      ["id", "name", "address", "description", "units", "yearBuilt", "renovated",
       "amenities", "contact", "staff", "images"] ∧
    (processPropertyData pname (.obj fields)).get "id" = .str (slugify pname) ∧
    (processPropertyData pname (.obj fields)).get "name" = .str pname ∧
    isDefined ((processPropertyData pname (.obj fields)).get "address") = true ∧
    isDefined ((processPropertyData pname (.obj fields)).get "description") = true ∧
    isDefined ((processPropertyData pname (.obj fields)).get "units") = true ∧
    isDefined ((processPropertyData pname (.obj fields)).get "yearBuilt") = true ∧
    isDefined ((processPropertyData pname (.obj fields)).get "renovated") = true ∧
    isDefined ((processPropertyData pname (.obj fields)).get "amenities") = true ∧
    isDefined ((processPropertyData pname (.obj fields)).get "images") = true ∧
    keysOf ((processPropertyData pname (.obj fields)).get "contact") =
      ["manager", "phone", "email"] ∧
    isDefined (((processPropertyData pname (.obj fields)).get "contact").get "manager") = true ∧
    isDefined (((processPropertyData pname (.obj fields)).get "contact").get "phone") = true ∧
    isDefined (((processPropertyData pname (.obj fields)).get "contact").get "email") = true ∧
    keysOf ((processPropertyData pname (.obj fields)).get "staff") =
      ["vp", "rem", "rsd", "ds", "pm"] ∧
    keysOf (((processPropertyData pname (.obj fields)).get "staff").get "vp") = ["name", "email"] ∧
    isDefined ((((processPropertyData pname (.obj fields)).get "staff").get "vp").get "name") = true ∧
    isDefined ((((processPropertyData pname (.obj fields)).get "staff").get "vp").get "email") = true ∧
    keysOf (((processPropertyData pname (.obj fields)).get "staff").get "rem") = ["name", "email"] ∧
    isDefined ((((processPropertyData pname (.obj fields)).get "staff").get "rem").get "name") = true ∧
    isDefined ((((processPropertyData pname (.obj fields)).get "staff").get "rem").get "email") = true ∧
    keysOf (((processPropertyData pname (.obj fields)).get "staff").get "rsd") = ["name", "email"] ∧
    isDefined ((((processPropertyData pname (.obj fields)).get "staff").get "rsd").get "name") = true ∧
    isDefined ((((processPropertyData pname (.obj fields)).get "staff").get "rsd").get "email") = true ∧
    keysOf (((processPropertyData pname (.obj fields)).get "staff").get "ds") = ["name", "email"] ∧
    isDefined ((((processPropertyData pname (.obj fields)).get "staff").get "ds").get "name") = true ∧
    isDefined ((((processPropertyData pname (.obj fields)).get "staff").get "ds").get "email") = true ∧
    keysOf (((processPropertyData pname (.obj fields)).get "staff").get "pm") = ["name", "email"] ∧
    isDefined ((((processPropertyData pname (.obj fields)).get "staff").get "pm").get "name") = true ∧
    isDefined ((((processPropertyData pname (.obj fields)).get "staff").get "pm").get "email") = true ∧
    processPropertyData pname (.obj []) = allDefaultProperty pname :=
  ⟨rfl, rfl, rfl,
   isDefined_jor _ _ rfl, isDefined_jor _ _ rfl, isDefined_jor _ _ rfl,
   isDefined_jor _ _ rfl, isDefined_jor _ _ rfl, isDefined_jor _ _ rfl,
   isDefined_jor _ _ rfl,
   rfl, isDefined_jor _ _ rfl, isDefined_jor _ _ rfl, isDefined_jor _ _ rfl,
   rfl,
   rfl, isDefined_jor _ _ rfl, isDefined_jor _ _ rfl,
   rfl, isDefined_jor _ _ rfl, isDefined_jor _ _ rfl,
   rfl, isDefined_jor _ _ rfl, isDefined_jor _ _ rfl,
   rfl, isDefined_jor _ _ rfl, isDefined_jor _ _ rfl,
   rfl, isDefined_jor _ _ rfl, isDefined_jor _ _ rfl,
   rfl⟩

/-! ## C2 -/

/-- C2 (counterexample): a record whose `images` field is present but an empty
sequence keeps the empty sequence — the placeholder is not substituted,
because in JavaScript an empty array is truthy, so `images || ['/logo.png']`
yields the empty array.  This holds in both `processPropertyData` and the
inline normalization of `getPropertyDetails`. -/
theorem images_empty_kept_counterexample :
    (processPropertyData "sample" (.obj [("images", .arr [])])).get "images" = .arr [] ∧
    (formatProperty "sample" "sample" (.obj [("images", .arr [])])).get "images" = .arr [] ∧
    JVal.arr [] ≠ JVal.arr [.str "/logo.png"] := by
  refine ⟨rfl, rfl, ?_⟩
  simp

/-- C2 (amended): the normalized `images` field equals `['/logo.png']` when
the raw record's `images` field is absent — in both `processPropertyData` and
the inline normalization of `getPropertyDetails` — while a present `images`
sequence, even the empty one, is kept unchanged. -/
theorem images_placeholder_when_absent (pname pid mid : String)
    (fields : List (String × JVal))
    (h : fields.find? (fun p => p.1 == "images") = none) :
    (processPropertyData pname (.obj fields)).get "images" = .arr [.str "/logo.png"] ∧
    (formatProperty pid mid (.obj fields)).get "images" = .arr [.str "/logo.png"] ∧
    (∀ (g : List (String × JVal)) (xs : List JVal),
      (JVal.obj g).get "images" = .arr xs →
      (processPropertyData pname (.obj g)).get "images" = .arr xs ∧
      (formatProperty pid mid (.obj g)).get "images" = .arr xs) := by
  have hget : (JVal.obj fields).get "images" = .undefined := by
    simp only [JVal.get]
    rw [h]
  refine ⟨?_, ?_, ?_⟩
  · show jor ((JVal.obj fields).get "images") (.arr [.str "/logo.png"]) = _
    rw [hget]
    rfl
  · show jor ((JVal.obj fields).get "images") (.arr [.str "/logo.png"]) = _
    rw [hget]
    rfl
  · intro g xs hg
    constructor
    · show jor ((JVal.obj g).get "images") (.arr [.str "/logo.png"]) = _
      rw [hg]
      rfl
    · show jor ((JVal.obj g).get "images") (.arr [.str "/logo.png"]) = _
      rw [hg]
      rfl

/-- Witness for C2's amended theorem at concrete records. -/
theorem images_placeholder_when_absent_witness :
    (processPropertyData "sample" (.obj [])).get "images" = .arr [.str "/logo.png"] ∧
    (processPropertyData "sample" (.obj [("images", .arr [.str "a.jpg"])])).get "images" =
      .arr [.str "a.jpg"] :=
  ⟨(images_placeholder_when_absent "sample" "s" "s" [] rfl).1,
   ((images_placeholder_when_absent "sample" "s" "s" [] rfl).2.2
     [("images", .arr [.str "a.jpg"])] [.str "a.jpg"] rfl).1⟩

/-! ## C3 -/

/-- C3: when the resolved remote path holds no value, `getPropertyDetails`
resolves (never rejects): outside a production execution context to the
non-null mock Property whose `id` is the requested (unmapped) slug, and inside
production to `null` (`none`). -/
theorem getPropertyDetails_absent_mock_or_null (read : Store) (isProduction : Bool)
    (state propertyId : String) (v : JVal)
    (hread : read ("properties/" ++ resolveState state ++ "/" ++ resolveProperty propertyId)
      = .val v)
    (habsent : isDefined v = false) :
    getPropertyDetails read isProduction state propertyId =
      .ok (if isProduction then none else some (mockProperty propertyId)) ∧
    (mockProperty propertyId).get "id" = .str propertyId := by
  constructor
  · simp only [getPropertyDetails]
    rw [hread]
    simp only [habsent]
    cases isProduction <;> simp
  · rfl

/-- Witness for C3 at a concrete empty store, in both execution contexts. -/
theorem getPropertyDetails_absent_mock_or_null_witness :
    getPropertyDetails (fun _ => Snap.val .undefined) false "delaware" "sample-property" =
      .ok (some (mockProperty "sample-property")) ∧
    getPropertyDetails (fun _ => Snap.val .undefined) true "delaware" "sample-property" =
      .ok none :=
  ⟨(getPropertyDetails_absent_mock_or_null (fun _ => Snap.val .undefined) false
      "delaware" "sample-property" .undefined rfl rfl).1,
   (getPropertyDetails_absent_mock_or_null (fun _ => Snap.val .undefined) true
      "delaware" "sample-property" .undefined rfl rfl).1⟩

/-! ## C4 -/

/-- C4: `getPropertiesByState` resolves to the empty mapping when the remote
store holds no value at the resolved state path, while a transport failure
rejects with that very error — absence and failure are never conflated. -/
theorem getPropertiesByState_empty_vs_error (read : Store) (state : String) :
    (∀ v : JVal,
      read ("properties/" ++ resolveState state) = .val v → isDefined v = false →
      getPropertiesByState read state = .ok (.obj [])) ∧
    (∀ e : String,
      read ("properties/" ++ resolveState state) = .failure e →
      getPropertiesByState read state = .error e) := by
  constructor
  · intro v hv hd
    simp only [getPropertiesByState]
    rw [hv]
    simp [hd]
  · intro e he
    simp only [getPropertiesByState]
    rw [he]

/-- Witness for C4 at a concrete empty store and a concrete failing store. -/
theorem getPropertiesByState_empty_vs_error_witness :
    getPropertiesByState (fun _ => Snap.val .undefined) "delaware" = .ok (.obj []) ∧
    getPropertiesByState (fun _ => Snap.failure "network error") "delaware" =
      .error "network error" :=
  ⟨(getPropertiesByState_empty_vs_error (fun _ => Snap.val .undefined) "delaware").1
      .undefined rfl rfl,
   (getPropertiesByState_empty_vs_error (fun _ => Snap.failure "network error")
      "delaware").2 "network error" rfl⟩

/-! ## C5 -/

theorem jsResolve_find_none_plain {t : List (String × String)} {s : String}
    (hf : t.find? (fun p => p.1 == s) = none)
    (hp : objectPrototypeMembers.contains s = false) :
    jsResolve t s = .str s := by
  simp only [jsResolve, jsTableGet]
  rw [hf, hp]
  rfl

theorem jsResolve_find_none_proto {t : List (String × String)} {s : String}
    (hf : t.find? (fun p => p.1 == s) = none)
    (hp : objectPrototypeMembers.contains s = true) :
    jsResolve t s = .inherited s := by
  simp only [jsResolve, jsTableGet]
  rw [hf, hp]
  rfl

theorem jsResolve_find_some {t : List (String × String)} {s : String}
    {p : String × String} (hf : t.find? (fun q => q.1 == s) = some p)
    (hv : p.2 ≠ "") : jsResolve t s = .str p.2 := by
  simp only [jsResolve, jsTableGet]
  rw [hf]
  simp [TableVal.toBool, hv]

/-- Full JavaScript resolution agrees with the plain own-entry lookup at every
key that is not an `Object.prototype` member name. -/
theorem jsResolve_eq_getD (t : List (String × String))
    (hne : ∀ p ∈ t, p.2 ≠ "") (s : String)
    (hs : objectPrototypeMembers.contains s = false) :
    jsResolve t s = .str ((tableLookup t s).getD s) := by
  cases hf : t.find? (fun p => p.1 == s) with
  | none =>
    rw [jsResolve_find_none_plain hf hs]
    unfold tableLookup
    rw [hf]
    rfl
  | some p =>
    rw [jsResolve_find_some hf (hne p (List.mem_of_find?_eq_some hf))]
    unfold tableLookup
    rw [hf]
    rfl

/-- Any string result of a resolution re-resolves to itself, provided every
table value is a non-empty string that itself resolves to itself. -/
theorem jsResolve_idem (t : List (String × String))
    (hne : ∀ p ∈ t, p.2 ≠ "")
    (hvals : ∀ p ∈ t, jsResolve t p.2 = .str p.2)
    (s r : String) (h : jsResolve t s = .str r) : jsResolve t r = .str r := by
  cases hf : t.find? (fun p => p.1 == s) with
  | none =>
    cases hp : objectPrototypeMembers.contains s with
    | true =>
      rw [jsResolve_find_none_proto hf hp] at h
      simp at h
    | false =>
      rw [jsResolve_find_none_plain hf hp] at h
      injection h with h'
      subst h'
      exact jsResolve_find_none_plain hf hp
  | some p =>
    have hv := hne p (List.mem_of_find?_eq_some hf)
    rw [jsResolve_find_some hf hv] at h
    injection h with h'
    subst h'
    exact hvals p (List.mem_of_find?_eq_some hf)

/-- C5 (counterexample): resolution is not the identity — and does not even
yield a string — at `Object.prototype` member names: `toString` is not an own
key of the state table, yet `stateMapping['toString'] || 'toString'` yields
the inherited (truthy) `toString` function, not the string `"toString"`; the
property table behaves the same at `constructor`. -/
theorem aliasResolution_proto_counterexample :
    tableLookup stateMapping "toString" = none ∧
    jsResolve stateMapping "toString" = .inherited "toString" ∧
    (jsResolve stateMapping "toString").isStr = false ∧
    jsResolve stateMapping "toString" ≠ .str "toString" ∧
    tableLookup propertyIdMapping "constructor" = none ∧
    jsResolve propertyIdMapping "constructor" = .inherited "constructor" ∧
    jsResolve propertyIdMapping "constructor" ≠ .str "constructor" := by
  refine ⟨rfl, by decide, rfl, by decide, rfl, by decide, by decide⟩

/-- C5 (amended): for every string that is not an `Object.prototype` member
name, alias resolution under full prototype-chain semantics yields a string,
agrees with the plain own-entry lookup, and passes a non-key through
unchanged (the empty string included); for every string, a string result
re-resolves to the same string (idempotence); and at an `Object.prototype`
member name — none of which is a key of either table — resolution instead
yields the inherited truthy non-string member. -/
theorem aliasResolution_nonproto_total_idempotent (s : String) :
    (objectPrototypeMembers.contains s = false →
      jsResolve stateMapping s = .str (resolveState s) ∧
      jsResolve propertyIdMapping s = .str (resolveProperty s) ∧
      (tableLookup stateMapping s = none → jsResolve stateMapping s = .str s) ∧
      (tableLookup propertyIdMapping s = none → jsResolve propertyIdMapping s = .str s)) ∧
    (∀ r : String, jsResolve stateMapping s = .str r → jsResolve stateMapping r = .str r) ∧
    (∀ r : String, jsResolve propertyIdMapping s = .str r →
      jsResolve propertyIdMapping r = .str r) ∧
    (objectPrototypeMembers.contains s = true →
      jsResolve stateMapping s = .inherited s ∧
      jsResolve propertyIdMapping s = .inherited s) := by
  have hne1 : ∀ p ∈ stateMapping, p.2 ≠ "" := by decide
  have hne2 : ∀ p ∈ propertyIdMapping, p.2 ≠ "" := by decide
  have hv1 : ∀ p ∈ stateMapping, jsResolve stateMapping p.2 = .str p.2 := by decide
  have hv2 : ∀ p ∈ propertyIdMapping, jsResolve propertyIdMapping p.2 = .str p.2 := by
    decide
  refine ⟨?_, fun r h => jsResolve_idem _ hne1 hv1 s r h,
    fun r h => jsResolve_idem _ hne2 hv2 s r h, ?_⟩
  · intro hs
    refine ⟨jsResolve_eq_getD _ hne1 s hs, jsResolve_eq_getD _ hne2 s hs, ?_, ?_⟩
    · intro hnone
      have h := jsResolve_eq_getD stateMapping hne1 s hs
      rw [hnone] at h
      exact h
    · intro hnone
      have h := jsResolve_eq_getD propertyIdMapping hne2 s hs
      rw [hnone] at h
      exact h
  · intro hs
    have hmem : s ∈ objectPrototypeMembers :=
      List.mem_of_elem_eq_true hs
    fin_cases hmem <;> exact ⟨by decide, by decide⟩

/-- Witness for C5's amended theorem: a mapped key, a pass-through non-key,
idempotence at a table value, and the inherited member at `toString`. -/
theorem aliasResolution_nonproto_witness :
    jsResolve stateMapping "newJersey" = .str "New Jersey" ∧
    jsResolve propertyIdMapping "not-a-key" = .str "not-a-key" ∧
    jsResolve stateMapping "New Jersey" = .str "New Jersey" ∧
    jsResolve stateMapping "toString" = .inherited "toString" :=
  ⟨((aliasResolution_nonproto_total_idempotent "newJersey").1 rfl).1,
   ((aliasResolution_nonproto_total_idempotent "not-a-key").1 rfl).2.2.2 rfl,
   (aliasResolution_nonproto_total_idempotent "newJersey").2.1 "New Jersey" (by decide),
   ((aliasResolution_nonproto_total_idempotent "toString").2.2.2 rfl).1⟩

/-! ## C6 -/

theorem jor_str_empty (s : String) : jor (.str s) (.str "") = .str s := by
  by_cases h : s = ""
  · subst h; rfl
  · simp [jor, JVal.toBool, h]

theorem jor_str_of_ne (s : String) (d : JVal) (h : s ≠ "") : jor (.str s) d = .str s := by
  simp [jor, JVal.toBool, h]

/-- The `name` field of a resolved non-null `getPropertyDetails` outcome. -/
def detailsName : Except String (Option JVal) → JVal
  | .ok (some p) => p.get "name"
  | _ => .undefined

/-- A store holding one record, without a `name` field, at the Firebase key
`flats` under `Maryland` — the record the frontend slug `the-flats` maps to. -/
def storeFlats : Store := fun path =>
  if path = "properties/Maryland/flats"
  then .val (.obj [("address", .str "100 Main St")])
  else .val .undefined

/-- C6 (counterexample): for the slug `the-flats`, whose record exists but has
no `name` field, `getPropertyDetails` derives the display-name fallback from
the mapped Firebase key `flats`, yielding `"Flats"` — not `"The Flats"`, the
Title-Case of the requested slug. -/
theorem name_fallback_counterexample :
    detailsName (getPropertyDetails storeFlats true "maryland" "the-flats") = .str "Flats" ∧
    titleCaseFromKey "the-flats" = "The Flats" ∧
    JVal.str "Flats" ≠ JVal.str "The Flats" := by
  refine ⟨rfl, rfl, ?_⟩
  simp

/-- C6 (amended): when the record exists but has no `name` field, the Property
returned by `getPropertyDetails` has `name` equal to the display-name fallback
derived from the resolved (mapped) Firebase key — Title-Case each segment of
the mapped key split on `-`, joined with spaces — not from the requested slug;
when the record has a non-empty `name`, that value is used instead. -/
theorem getPropertyDetails_name_from_mapped_key (read : Store) (isProduction : Bool)
    (state slug : String) (fields : List (String × JVal))
    (hread : read ("properties/" ++ resolveState state ++ "/" ++ resolveProperty slug)
      = .val (.obj fields)) :
    (fields.find? (fun p => p.1 == "name") = none →
      detailsName (getPropertyDetails read isProduction state slug) =
        .str (titleCaseFromKey (resolveProperty slug))) ∧
    (∀ s' : String, (JVal.obj fields).get "name" = .str s' → s' ≠ "" →
      detailsName (getPropertyDetails read isProduction state slug) = .str s') := by
  have hrun : getPropertyDetails read isProduction state slug =
      .ok (some (formatProperty slug (resolveProperty slug) (.obj fields))) := by
    simp only [getPropertyDetails]
    rw [hread]
    rfl
  constructor
  · intro hname
    rw [hrun]
    show jor ((JVal.obj fields).get "name") (.str (titleCaseFromKey (resolveProperty slug))) = _
    have hget : (JVal.obj fields).get "name" = .undefined := by
      simp only [JVal.get]
      rw [hname]
    rw [hget]
    rfl
  · intro s' hs' hne
    rw [hrun]
    show jor ((JVal.obj fields).get "name") (.str (titleCaseFromKey (resolveProperty slug))) = _
    rw [hs']
    exact jor_str_of_ne s' _ hne

/-- Witness for C6's amended theorem: a record without `name` yields the name
derived from the mapped key, and a record with a `name` keeps it. -/
theorem getPropertyDetails_name_from_mapped_key_witness :
    detailsName (getPropertyDetails storeFlats true "maryland" "the-flats") = .str "Flats" ∧
    detailsName (getPropertyDetails
      (fun _ => Snap.val (.obj [("name", .str "The Flats at Maryland")]))
      true "maryland" "the-flats") = .str "The Flats at Maryland" :=
  ⟨(getPropertyDetails_name_from_mapped_key storeFlats true "maryland" "the-flats"
      [("address", .str "100 Main St")] rfl).1 rfl,
   (getPropertyDetails_name_from_mapped_key
      (fun _ => Snap.val (.obj [("name", .str "The Flats at Maryland")]))
      true "maryland" "the-flats"
      [("name", .str "The Flats at Maryland")] rfl).2
      "The Flats at Maryland" rfl (by decide)⟩

/-! ## C7 -/

/-- C7 (counterexample): the state-alias key `newJersey` is not lowercase, and
the lowercased id `new jersey` that `getAllProperties` would emit for the
store key `New Jersey` does not resolve through the table back to
`New Jersey`. -/
theorem stateMapping_key_case_counterexample :
    ("newJersey" ∈ stateMapping.map Prod.fst) ∧
    jsToLower "newJersey" ≠ "newJersey" ∧
    resolveState (jsToLower "New Jersey") ≠ "New Jersey" := by
  refine ⟨by decide, by decide, by decide⟩

/-- C7 (amended): every key of the state-alias table except `newJersey` is
lowercase; for the six single-word store keys the lowercased state id produced
by `getAllProperties` resolves through the table to the exact-cased store key,
but the lowercased id for `New Jersey` is `new jersey`, which is not a table
key and passes through unchanged.  `getAllProperties` does lowercase every
state key on the way out. -/
theorem stateMapping_keys_lowercase_except_newJersey :
    (stateMapping.all (fun p => p.1 == "newJersey" || jsToLower p.1 == p.1)) = true ∧
    (["Delaware", "Indiana", "Maryland", "Ohio", "Pennsylvania", "Virginia"].all
      (fun s => resolveState (jsToLower s) == s)) = true ∧
    resolveState (jsToLower "New Jersey") = "new jersey" ∧
    (∀ (s : String) (v : JVal),
      getAllProperties (fun _ => Snap.val (.obj [(s, v)])) =
        .ok (.obj [(jsToLower s, processStateVal v)])) :=
  ⟨by decide, by decide, by decide, fun _ _ => rfl⟩

/-! ## C8 -/

/-- C8: a record whose `pm` role holds `{name, email}` normalizes to
`contact.manager = pm.name`, `contact.email = pm.email` and `staff.pm` equal
to the same pair, while the other roles stay all-empty; role records default
field-by-field — a role with a `name` but no `email` keeps the name and gets
an empty email. -/
theorem processPropertyData_pm_roles (pname n e m : String) :
    (((processPropertyData pname
        (.obj [("pm", .obj [("name", .str n), ("email", .str e)])])).get
        "contact").get "manager" = .str n) ∧
    (((processPropertyData pname
        (.obj [("pm", .obj [("name", .str n), ("email", .str e)])])).get
        "contact").get "email" = .str e) ∧
    (((processPropertyData pname
        (.obj [("pm", .obj [("name", .str n), ("email", .str e)])])).get
        "staff").get "pm" = .obj [("name", .str n), ("email", .str e)]) ∧
    (((processPropertyData pname
        (.obj [("pm", .obj [("name", .str n), ("email", .str e)])])).get
        "staff").get "vp" = .obj [("name", .str ""), ("email", .str "")]) ∧
    (((processPropertyData pname
        (.obj [("pm", .obj [("name", .str n), ("email", .str e)])])).get
        "staff").get "rem" = .obj [("name", .str ""), ("email", .str "")]) ∧
    (((processPropertyData pname
        (.obj [("pm", .obj [("name", .str n), ("email", .str e)])])).get
        "staff").get "rsd" = .obj [("name", .str ""), ("email", .str "")]) ∧
    (((processPropertyData pname
        (.obj [("pm", .obj [("name", .str n), ("email", .str e)])])).get
        "staff").get "ds" = .obj [("name", .str ""), ("email", .str "")]) ∧
    (((processPropertyData pname
        (.obj [("rsd", .obj [("name", .str m)])])).get
        "staff").get "rsd" = .obj [("name", .str m), ("email", .str "")]) := by
  refine ⟨?_, ?_, ?_, rfl, rfl, rfl, rfl, ?_⟩
  · show jor (.str n) (.str "") = .str n
    exact jor_str_empty n
  · show jor (.str e) (.str "") = .str e
    exact jor_str_empty e
  · show JVal.obj [("name", jor (.str n) (.str "")), ("email", jor (.str e) (.str ""))] = _
    rw [jor_str_empty, jor_str_empty]
  · show JVal.obj [("name", jor (.str m) (.str "")), ("email", .str "")] = _
    rw [jor_str_empty]

/-! ## C9 -/

/-- C9: `savePropertyData` with a successful write resolves to `true` and
replaces the entire value at `properties/{state}/{property}` with the raw
record — a raw read of that path immediately afterwards returns exactly the
written record, whatever was stored before, and every other path is untouched
(whole-value overwrite, not a merge) — while a failing write rejects with the
write error. -/
theorem savePropertyData_overwrite_roundtrip (store : RawStore)
    (state property : String) (propertyData : JVal) (e : String) :
    savePropertyData store .success state property propertyData =
      .ok (true, fbSet store ("properties/" ++ state ++ "/" ++ property) propertyData) ∧
    fbSet store ("properties/" ++ state ++ "/" ++ property) propertyData
      ("properties/" ++ state ++ "/" ++ property) = propertyData ∧
    (∀ q : String, q ≠ "properties/" ++ state ++ "/" ++ property →
      fbSet store ("properties/" ++ state ++ "/" ++ property) propertyData q = store q) ∧
    savePropertyData store (.failure e) state property propertyData = .error e := by
  refine ⟨rfl, ?_, ?_, rfl⟩
  · simp [fbSet]
  · intro q hq
    simp [fbSet, hq]

/-- Witness for C9 at a concrete store, path and record. -/
theorem savePropertyData_overwrite_roundtrip_witness :
    savePropertyData (fun _ => JVal.null) .success "Delaware" "westover-pointe"
        (.obj [("address", .str "1 Elm St")]) =
      .ok (true, fbSet (fun _ => JVal.null) "properties/Delaware/westover-pointe"
        (.obj [("address", .str "1 Elm St")])) ∧
    fbSet (fun _ => JVal.null) "properties/Delaware/westover-pointe"
        (.obj [("address", .str "1 Elm St")]) "properties/Delaware/westover-pointe" =
      .obj [("address", .str "1 Elm St")] ∧
    fbSet (fun _ => JVal.null) "properties/Delaware/westover-pointe"
        (.obj [("address", .str "1 Elm St")]) "properties/Delaware/other" = JVal.null ∧
    savePropertyData (fun _ => JVal.null) (.failure "permission denied") "Delaware"
        "westover-pointe" (.obj [("address", .str "1 Elm St")]) =
      .error "permission denied" :=
  ⟨(savePropertyData_overwrite_roundtrip (fun _ => JVal.null) "Delaware" "westover-pointe"
      (.obj [("address", .str "1 Elm St")]) "permission denied").1,
   (savePropertyData_overwrite_roundtrip (fun _ => JVal.null) "Delaware" "westover-pointe"
      (.obj [("address", .str "1 Elm St")]) "permission denied").2.1,
   (savePropertyData_overwrite_roundtrip (fun _ => JVal.null) "Delaware" "westover-pointe"
      (.obj [("address", .str "1 Elm St")]) "permission denied").2.2.1
      "properties/Delaware/other" (by decide),
   (savePropertyData_overwrite_roundtrip (fun _ => JVal.null) "Delaware" "westover-pointe"
      (.obj [("address", .str "1 Elm St")]) "permission denied").2.2.2⟩

/-! ## C10 -/

/-- The value of a resolved collection read. -/
def okVal : Except String JVal → JVal
  | .ok v => v
  | .error _ => .undefined

/-- A store whose `Maryland` subtree holds one property under the Firebase key
`flats` (whose frontend slug is `the-flats`). -/
def storeMaryland : Store := fun path =>
  if path = "properties/Maryland" then .val (.obj [("flats", .obj [])]) else .val .undefined

/-- C10: the collection reads key each Property by the store key lowercased
with whitespace runs replaced by dashes (`slugify`), never applying the
property-alias table in reverse: a store key `flats` is listed under id
`flats` (and not under the frontend slug `the-flats`) by both
`getPropertiesByState` and `getAllProperties`, while `getPropertyDetails`
resolves the slug `the-flats` to the same store key `flats` — so the listed id
differs from the slug. -/
theorem collection_ids_vs_alias (pname : String) (details : JVal) :
    (processPropertyData pname details).get "id" = .str (slugify pname) ∧
    slugify "Cherry Hill  Towers" = "cherry-hill-towers" ∧
    getPropertiesByState storeMaryland "maryland" =
      .ok (.obj [("flats", processPropertyData "flats" (.obj []))]) ∧
    (okVal (getPropertiesByState storeMaryland "maryland")).get "the-flats" = .undefined ∧
    getAllProperties (fun _ => Snap.val (.obj [("Maryland", .obj [("flats", .obj [])])])) =
      .ok (.obj [("maryland", .obj [("flats", processPropertyData "flats" (.obj []))])]) ∧
    resolveProperty "the-flats" = "flats" ∧
    ("flats" : String) ≠ "the-flats" := by
  refine ⟨rfl, by decide, rfl, rfl, rfl, by decide, by decide⟩

end PropertyService
